import Mathlib

/-!
# Verification of the geminicli2api credential-pool and protocol-translation core

Shallow embedding of the core logic of `src/auth.py` and
`src/openai_transformers.py`: the per-credential cooldown tracker, credential
loading/normalization, project-id resolution, the onboarding tier handshake,
and the OpenAI ↔ Gemini translators.  Timestamps are modelled as rationals
(Python `time.time()` floats), machine dictionaries as association lists.
-/

namespace GeminiCli2Api

/-! ## Cooldown tracker (`src/auth.py`, lines 200–247)

`_credential_cooldowns : Dict[str, tuple]` maps a credential file path to
`(cooldown expiry timestamp, backoff level)`.  We model the dict as an
association list; insertion overwrites the binding for the key. -/

/-- The `_credential_cooldowns` map: credential path ↦ (expiry, backoff). -/
abbrev CDMap := List (String × ℚ × ℕ)

/-- Dictionary lookup `_credential_cooldowns.get(cred_path)`. -/
def cdLookup (m : CDMap) (k : String) : Option (ℚ × ℕ) :=
  (m.find? (fun e => e.1 == k)).map (fun e => e.2)

/-- Dictionary assignment `_credential_cooldowns[cred_path] = v` (overwrite). -/
def cdInsert (m : CDMap) (k : String) (v : ℚ × ℕ) : CDMap :=
  (k, v) :: m.filter (fun e => ¬ (e.1 == k))

/-- Dictionary removal `_credential_cooldowns.pop(cred_path, None)`. -/
def cdErase (m : CDMap) (k : String) : CDMap :=
  m.filter (fun e => ¬ (e.1 == k))

/-- Python `int()` truncation toward zero on a rational. -/
def pyInt (q : ℚ) : ℤ :=
  if q < 0 then -(⌊-q⌋) else ⌊q⌋

/-- The backoff level `set_credential_cooldown` computes for its new entry:
`min(backoff + 1, 5)` when a previous entry exists, else `1`. -/
def nextBackoff (m : CDMap) (credPath : String) : ℕ :=
  match cdLookup m credPath with
  | some (_, backoff) => min (backoff + 1) 5
  | none => 1

/-- Formula `cooldown_seconds = min(base_cooldown * (2 ** (backoff - 1)), max_cooldown)`. -/
def cooldownSeconds (baseCooldown maxCooldown backoff : ℕ) : ℕ :=
  min (baseCooldown * 2 ^ (backoff - 1)) maxCooldown

/-- Function `set_credential_cooldown(cred_path)` at wall-clock time `now`
(defaults `base_cooldown=60`, `max_cooldown=1800`). -/
def set_credential_cooldown (m : CDMap) (credPath : String) (now : ℚ)
    (baseCooldown : ℕ := 60) (maxCooldown : ℕ := 1800) : CDMap :=
  let backoff := nextBackoff m credPath
  cdInsert m credPath (now + (cooldownSeconds baseCooldown maxCooldown backoff : ℚ), backoff)

/-- Function `is_credential_in_cooldown(cred_path)` at time `now`: returns the boolean
together with the (possibly lazily evicted) map. -/
def is_credential_in_cooldown (m : CDMap) (credPath : String) (now : ℚ) :
    Bool × CDMap :=
  match cdLookup m credPath with
  | none => (false, m)
  | some (expiry, _) =>
      if now ≥ expiry then (false, cdErase m credPath) else (true, m)

/-- Function `get_credential_cooldown_remaining(cred_path)` at time `now`: the integer
remaining seconds (truncated) together with the possibly evicted map. -/
def get_credential_cooldown_remaining (m : CDMap) (credPath : String) (now : ℚ) :
    ℤ × CDMap :=
  match cdLookup m credPath with
  | none => (0, m)
  | some (expiry, _) =>
      let remaining := pyInt (expiry - now)
      if remaining ≤ 0 then (0, cdErase m credPath) else (remaining, m)

/-- Function `reset_credential_cooldown(cred_path)`. -/
def reset_credential_cooldown (m : CDMap) (credPath : String) : CDMap :=
  cdErase m credPath

/-- A sequence of consecutive `set_credential_cooldown` calls at the given
wall-clock times, in order. -/
def setCooldownSeq (m : CDMap) (credPath : String) (ts : List ℚ) : CDMap :=
  ts.foldl (fun m t => set_credential_cooldown m credPath t) m

/-! ## Python string/datetime primitives used by `load_credentials_from_file`

`datetime.fromisoformat`, `datetime.strptime(_, "%Y-%m-%dT%H:%M:%S")`,
`datetime.timestamp`, `datetime.utcfromtimestamp` and
`strftime('%Y-%m-%dT%H:%M:%SZ')`, embedded executably.  The ISO parser models
the classic strict `fromisoformat` grammar
`YYYY-MM-DD[*HH[:MM[:SS[.fff[fff]]]][+HH:MM]]` (the source replaces a
trailing `Z` by `+00:00` before parsing precisely because `fromisoformat`
does not accept `Z`). -/

/-- Substring occurrence test on character lists. -/
def listContains (hay sub : List Char) : Bool :=
  match hay with
  | [] => sub.isEmpty
  | _ :: t => sub.isPrefixOf hay || listContains t sub

/-- Python substring test `sub in s` (for non-empty `sub`). -/
def pyContains (s sub : String) : Bool :=
  listContains s.toList sub.toList

/-- Python `s.endswith(suffix)`. -/
def pyEndsWith (s suffix : String) : Bool :=
  suffix.toList.isSuffixOf s.toList

/-- Left-to-right non-overlapping replacement on character lists, fuelled
(structural recursion; one character and one unit of fuel per step). -/
def replaceFuel (sub repl : List Char) : ℕ → List Char → List Char
  | 0, cs => cs
  | _ + 1, [] => []
  | fuel + 1, c :: t =>
      if sub.isPrefixOf (c :: t) then
        repl ++ replaceFuel sub repl fuel (t.drop (sub.length - 1))
      else c :: replaceFuel sub repl fuel t

/-- Python `s.replace(sub, repl)` for non-empty `sub`. -/
def pyReplace (s sub repl : String) : String :=
  String.mk (replaceFuel sub.toList repl.toList s.toList.length s.toList)

/-- Split on a non-empty separator, fuelled (Python `s.split(sep)`). -/
def splitOnFuel (sep : List Char) : ℕ → List Char → List (List Char)
  | 0, cs => [cs]
  | _ + 1, [] => [[]]
  | fuel + 1, c :: t =>
      if sep.isPrefixOf (c :: t) then
        [] :: splitOnFuel sep fuel (t.drop (sep.length - 1))
      else
        match splitOnFuel sep fuel t with
        | [] => [[c]]
        | h :: r => (c :: h) :: r

/-- Python `s.split(sep)` for non-empty `sep`. -/
def pySplit (s sep : String) : List String :=
  (splitOnFuel sep.toList (s.toList.length + 1) s.toList).map String.mk

/-- Python `s.rstrip("Z")`: drop all trailing `'Z'` characters. -/
def rstripZ (s : String) : String :=
  String.mk ((s.toList.reverse.dropWhile (fun c => c = 'Z')).reverse)

/-- Python `s.split(".")[0]`: the prefix before the first `'.'`. -/
def beforeDot (s : String) : String :=
  String.mk (s.toList.takeWhile (fun c => c ≠ '.'))

/-- Numeric value of a decimal digit character. -/
def digitVal (c : Char) : ℕ := c.toNat - 48

/-- Read exactly `n` decimal digits from the front, returning their value and
the rest of the characters. -/
def readDigitsAux : ℕ → ℕ → List Char → Option (ℕ × List Char)
  | 0, acc, cs => some (acc, cs)
  | n + 1, acc, c :: cs =>
      if c.isDigit then readDigitsAux n (acc * 10 + digitVal c) cs else none
  | _ + 1, _, [] => none

/-- Read exactly `n` decimal digits. -/
def readDigits (n : ℕ) (cs : List Char) : Option (ℕ × List Char) :=
  readDigitsAux n 0 cs

/-- Proleptic-Gregorian leap-year test. -/
def isLeapYear (y : ℤ) : Bool :=
  (y % 4 = 0 && y % 100 ≠ 0) || y % 400 = 0

/-- Number of days in a month of a given year. -/
def daysInMonth (y : ℤ) (m : ℕ) : ℕ :=
  if m = 2 then (if isLeapYear y then 29 else 28)
  else if m = 4 ∨ m = 6 ∨ m = 9 ∨ m = 11 then 30
  else 31

/-- A Python `datetime.datetime`: civil fields plus an optional fixed UTC
offset in minutes (`none` = naive). -/
structure PyDateTime where
  year : ℤ
  month : ℕ
  day : ℕ
  hour : ℕ
  minute : ℕ
  second : ℕ
  microsecond : ℕ
  offsetMinutes : Option ℤ
deriving Repr, DecidableEq

/-- Days since 1970-01-01 of a proleptic-Gregorian civil date
(`days_from_civil`, extensionally CPython's ordinal arithmetic). -/
def daysFromCivil (y : ℤ) (mo d : ℕ) : ℤ :=
  let y' := if mo ≤ 2 then y - 1 else y
  let era := Int.ediv y' 400
  let yoe := y' - era * 400
  let mp : ℤ := if 2 < mo then (mo : ℤ) - 3 else (mo : ℤ) + 9
  let doy := Int.ediv (153 * mp + 2) 5 + (d : ℤ) - 1
  let doe := yoe * 365 + Int.ediv yoe 4 - Int.ediv yoe 100 + doy
  era * 146097 + doe - 719468

/-- Civil date from days since 1970-01-01 (`civil_from_days`). -/
def civilFromDays (z0 : ℤ) : ℤ × ℕ × ℕ :=
  let z := z0 + 719468
  let era := Int.ediv z 146097
  let doe := z - era * 146097
  let yoe := Int.ediv (doe - Int.ediv doe 1460 + Int.ediv doe 36524 - Int.ediv doe 146096) 365
  let y := yoe + era * 400
  let doy := doe - (365 * yoe + Int.ediv yoe 4 - Int.ediv yoe 100)
  let mp := Int.ediv (5 * doy + 2) 153
  let d := doy - Int.ediv (153 * mp + 2) 5 + 1
  let m := if mp < 10 then mp + 3 else mp - 9
  (if m ≤ 2 then y + 1 else y, m.toNat, d.toNat)

/-- Python `datetime.timestamp()`: seconds since the epoch.  All datetimes
reaching this call in the source carry an explicit offset (the `Z` form is
rewritten to `+00:00` first); a naive datetime is treated as UTC here. -/
def pyTimestamp (dt : PyDateTime) : ℚ :=
  mkRat ((daysFromCivil dt.year dt.month dt.day * 86400
      + dt.hour * 3600 + dt.minute * 60 + dt.second
      - (dt.offsetMinutes.getD 0) * 60) * 1000000 + dt.microsecond) 1000000

/-- Python `datetime.utcfromtimestamp(ts)`, microseconds dropped (the source
immediately formats with `%S`, which discards them; the parsed fractions are
below the rounding carry threshold). -/
def utcFromTimestamp (ts : ℚ) : PyDateTime :=
  let secs : ℤ := ⌊ts⌋
  let days := Int.ediv secs 86400
  let sod := (Int.emod secs 86400).toNat
  let c := civilFromDays days
  ⟨c.1, c.2.1, c.2.2, sod / 3600, sod % 3600 / 60, sod % 60, 0, none⟩

/-- Decimal digits of `n`, left-padded with zeros to width `w`. -/
def pad (w n : ℕ) : List Char :=
  let ds := Nat.toDigits 10 n
  List.replicate (w - ds.length) '0' ++ ds

/-- Formatter `strftime('%Y-%m-%dT%H:%M:%SZ')` on a datetime (years of the code's
normalization path are nonnegative). -/
def strftimeZ (dt : PyDateTime) : String :=
  String.mk (pad 4 dt.year.toNat ++ '-' :: pad 2 dt.month ++ '-' :: pad 2 dt.day
    ++ 'T' :: pad 2 dt.hour ++ ':' :: pad 2 dt.minute ++ ':' :: pad 2 dt.second ++ ['Z'])

/-- Parse `HH[:MM[:SS[.fff[fff]]]]` returning `(h, min, s, microsecond, rest)`. -/
def parseTimeOfDay (cs : List Char) : Option (ℕ × ℕ × ℕ × ℕ × List Char) :=
  match readDigits 2 cs with
  | none => none
  | some (h, rest) =>
    match rest with
    | ':' :: rest2 =>
      match readDigits 2 rest2 with
      | none => none
      | some (mi, rest3) =>
        match rest3 with
        | ':' :: rest4 =>
          match readDigits 2 rest4 with
          | none => none
          | some (s, rest5) =>
            match rest5 with
            | '.' :: rest6 =>
              (match readDigits 6 rest6 with
                | some (us, rest7) => some (h, mi, s, us, rest7)
                | none =>
                  match readDigits 3 rest6 with
                  | some (ms, rest7) => some (h, mi, s, ms * 1000, rest7)
                  | none => none)
            | _ => some (h, mi, s, 0, rest5)
        | _ => some (h, mi, 0, 0, rest3)
    | _ => some (h, 0, 0, 0, rest)

/-- Parse an optional trailing UTC offset `[+|-]HH:MM` (must consume the rest
of the string); returns the signed offset in minutes. -/
def parseUTCOffset (cs : List Char) : Option (Option ℤ) :=
  match cs with
  | [] => some none
  | sign :: rest =>
    if sign = '+' ∨ sign = '-' then
      match readDigits 2 rest with
      | some (oh, ':' :: rest2) =>
        (match readDigits 2 rest2 with
          | some (om, []) =>
            if oh < 24 ∧ om < 60 then
              some (some ((if sign = '-' then -1 else 1) * ((oh : ℤ) * 60 + om)))
            else none
          | _ => none)
      | _ => none
    else none

/-- Python `datetime.fromisoformat` (strict classic grammar, see above). -/
def fromisoformat (s : String) : Option PyDateTime :=
  match readDigits 4 s.toList with
  | some (y, '-' :: r1) =>
    (match readDigits 2 r1 with
      | some (mo, '-' :: r2) =>
        (match readDigits 2 r2 with
          | some (d, r3) =>
            if 1 ≤ y ∧ 1 ≤ mo ∧ mo ≤ 12 ∧ 1 ≤ d ∧ d ≤ daysInMonth y mo then
              match r3 with
              | [] => some ⟨y, mo, d, 0, 0, 0, 0, none⟩
              | _sep :: r4 =>
                match parseTimeOfDay r4 with
                | some (h, mi, sec, us, r5) =>
                  if h < 24 ∧ mi < 60 ∧ sec < 60 then
                    match parseUTCOffset r5 with
                    | some off => some ⟨y, mo, d, h, mi, sec, us, off⟩
                    | none => none
                  else none
                | none => none
            else none
          | _ => none)
      | _ => none)
  | _ => none

/-- Python `datetime.strptime(s, "%Y-%m-%dT%H:%M:%S")` (4-digit year form, as
produced by the code's own canonical formatter). -/
def strptimeCanonical (s : String) : Option PyDateTime :=
  match readDigits 4 s.toList with
  | some (y, '-' :: r1) =>
    (match readDigits 2 r1 with
      | some (mo, '-' :: r2) =>
        (match readDigits 2 r2 with
          | some (d, 'T' :: r3) =>
            (match readDigits 2 r3 with
              | some (h, ':' :: r4) =>
                (match readDigits 2 r4 with
                  | some (mi, ':' :: r5) =>
                    (match readDigits 2 r5 with
                      | some (sec, []) =>
                        if 1 ≤ y ∧ 1 ≤ mo ∧ mo ≤ 12 ∧ 1 ≤ d ∧ d ≤ daysInMonth y mo
                            ∧ h < 24 ∧ mi < 60 ∧ sec < 60 then
                          some ⟨y, mo, d, h, mi, sec, 0, none⟩
                        else none
                      | _ => none)
                  | _ => none)
              | _ => none)
          | _ => none)
      | _ => none)
  | _ => none

/-! ## Credential loading and normalization (`src/auth.py`, lines 90–150, 250–278) -/

/-- A JSON scalar that may sit in the `expiry` field: a string or a number. -/
inductive PyVal where
  | str (s : String)
  | num (q : ℚ)
deriving Repr, DecidableEq

/-- The `creds_data` dictionary produced by `json.loads` on a credential
file; `none` in a field means the key is absent. -/
structure RawCreds where
  token : Option String := none
  access_token : Option String := none
  refresh_token : Option String := none
  client_id : Option String := none
  client_secret : Option String := none
  scope : Option String := none
  scopes : Option (List String) := none
  expiry : Option PyVal := none
  project_id : Option String := none
deriving Repr, DecidableEq

/-- The in-memory `google.oauth2.credentials.Credentials` fields the code
reads (the class has no `project_id` attribute). -/
structure Credentials where
  token : Option String
  refresh_token : Option String
  scopes : List String
  expiry : Option PyDateTime
deriving Repr, DecidableEq

/-- Python truthiness of an optional string (`None` and `""` are falsy). -/
def truthyStr : Option String → Bool
  | none => false
  | some s => s ≠ ""

/-- Whitespace-run splitter on character lists, fuelled. -/
def splitWsFuel : ℕ → List Char → List String
  | 0, _ => []
  | _ + 1, [] => []
  | fuel + 1, c :: t =>
      if c.isWhitespace then splitWsFuel fuel t
      else
        String.mk ((c :: t).takeWhile (fun x => ¬ x.isWhitespace)) ::
          splitWsFuel fuel ((c :: t).dropWhile (fun x => ¬ x.isWhitespace)).tail

/-- Python `s.split()`: split on whitespace runs, dropping empty pieces. -/
def pySplitWhitespace (s : String) : List String :=
  splitWsFuel (s.toList.length + 1) s.toList

/-- The expiry-normalization block of `load_credentials_from_file`
(lines 134–146): strings containing `+00:00` or `Z` are parsed
(`Z` rewritten to `+00:00` when terminal) and reformatted through the single
canonical UTC formatter; other values pass through unchanged.  `none` models
the `ValueError` a failed parse raises (caught by the enclosing `except`,
which makes the whole load return `None`). -/
def expiryAfterNormalization : PyVal → Option PyVal
  | .num q => some (.num q)
  | .str s =>
    if pyContains s "+00:00" || pyContains s "Z" then
      let parsed :=
        if pyContains s "+00:00" then fromisoformat s
        else if pyEndsWith s "Z" then fromisoformat (pyReplace s "Z" "+00:00")
        else fromisoformat s
      match parsed with
      | none => none
      | some dt => some (.str (strftimeZ (utcFromTimestamp (pyTimestamp dt))))
    else some (.str s)

/-- Modelled from google-auth `Credentials.from_authorized_user_info`:
requires the `refresh_token`, `client_id` and `client_secret` keys; a truthy
`expiry` is parsed with `strptime(expiry.rstrip("Z").split(".")[0],
"%Y-%m-%dT%H:%M:%S")` (a non-string raises on `.rstrip`); `none` models the
raised `ValueError`, which the caller in `auth.py` turns into `None`. -/
def from_authorized_user_info (info : RawCreds) (defaultScopes : List String) :
    Option Credentials :=
  if info.refresh_token.isNone || info.client_id.isNone || info.client_secret.isNone then
    none
  else
    let expiryResult : Option (Option PyDateTime) :=
      match info.expiry with
      | none => some none
      | some (.str s) =>
          if s = "" then some none
          else
            match strptimeCanonical (beforeDot (rstripZ s)) with
            | some dt => some (some dt)
            | none => none
      | some (.num q) => if q = 0 then some none else none
    match expiryResult with
    | none => none
    | some e =>
        some { token := info.token
               refresh_token := info.refresh_token
               scopes := (match info.scopes with
                          | some l => if l = [] then defaultScopes else l
                          | none => defaultScopes)
               expiry := e }

/-- The field-aliasing steps of `load_credentials_from_file` (lines
130–133): `access_token → token` and `scope → scopes` when the canonical key
is absent. -/
def aliasCreds (cd0 : RawCreds) : RawCreds :=
  let cd1 := if cd0.access_token.isSome ∧ cd0.token.isNone then
      { cd0 with token := cd0.access_token } else cd0
  if cd1.scope.isSome ∧ cd1.scopes.isNone then
    { cd1 with scopes := some (pySplitWhitespace (cd1.scope.getD "")) } else cd1

/-- Function `load_credentials_from_file` (lines 122–150), as a function of the
parsed JSON content of the file (`none` = unreadable file / invalid JSON,
i.e. the read or `json.loads` raised). -/
def load_credentials_from_file (parsed : Option RawCreds)
    (defaultScopes : List String) : Option Credentials :=
  match parsed with
  | none => none
  | some cd0 =>
    let cd2 := aliasCreds cd0
    match cd2.expiry with
    | none => from_authorized_user_info cd2 defaultScopes
    | some e =>
      match expiryAfterNormalization e with
      | none => none
      | some e' => from_authorized_user_info { cd2 with expiry := some e' } defaultScopes

/-- The credential store: the `.json` files of the auth folder in listing
order, each with its parsed content (`none` = unparseable). -/
abbrev CredStore := List (String × Option RawCreds)

/-- Function `find_credential_file_for_project` (lines 99–111): first file whose raw
JSON carries the matching `project_id` (unreadable files are skipped). -/
def find_credential_file_for_project (files : CredStore) (projectId : String) :
    Option (String × Option RawCreds) :=
  files.find? (fun f => match f.2 with
    | some cd => cd.project_id == some projectId
    | none => false)

/-- Function `load_any_valid_credentials` (lines 113–120): first file that loads
successfully and carries a truthy token. -/
def load_any_valid_credentials (files : CredStore) (defaultScopes : List String) :
    Option Credentials :=
  files.findSome? (fun f =>
    match load_credentials_from_file f.2 defaultScopes with
    | some c => if truthyStr c.token then some c else none
    | none => none)

/-- Function `get_credentials` (lines 250–278) in its initial-state configuration: the
global `credentials` cache is `None` and the `GEMINI_CREDENTIALS` branch of
the source is an elided `pass`, so both fall through. -/
def get_credentials (files : CredStore) (defaultScopes : List String)
    (projectId : Option String) : Option Credentials :=
  match projectId with
  | some pid =>
    if pid = "" then load_any_valid_credentials files defaultScopes
    else
      match find_credential_file_for_project files pid with
      | some f =>
        (match load_credentials_from_file f.2 defaultScopes with
          | some c =>
            if truthyStr c.token then some c
            else load_any_valid_credentials files defaultScopes
          | none => load_any_valid_credentials files defaultScopes)
      | none => load_any_valid_credentials files defaultScopes
  | none => load_any_valid_credentials files defaultScopes

/-- A record that parses fine and is refreshable but carries no access
token (all required keys present, `token` absent). -/
def tokenlessRaw : RawCreds :=
  { refresh_token := some "r", client_id := some "i", client_secret := some "s" }

/-- A usable record bound to project `p1`. -/
def projRaw : RawCreds :=
  { refresh_token := some "r", client_id := some "i", client_secret := some "s",
    token := some "tok1", project_id := some "p1" }

/-- A refreshable record whose expiry string is malformed (it ends with `Z`
but is not an ISO-8601 timestamp). -/
def malformedExpiryRaw : RawCreds :=
  { refresh_token := some "r", client_id := some "i", client_secret := some "s",
    token := some "t", expiry := some (.str "not-a-dateZ") }

/-- The same record with a well-formed `Z`-suffixed expiry. -/
def wellFormedExpiryRaw : RawCreds :=
  { refresh_token := some "r", client_id := some "i", client_secret := some "s",
    token := some "t", expiry := some (.str "2024-02-29T12:30:05Z") }

/-! ## Project-id resolution (`src/auth.py`, lines 360–435)

`get_user_project_id(creds)` as a function of the project id the credential
object exposes (via its `project_id` attribute or its `to_json` dump), the
`GOOGLE_CLOUD_PROJECT` environment variable, the credential's access token,
and the `cloudaicompanionProject` field of the discovery response.  All four
checks in the source are Python truthiness tests. -/

/-- Function `get_user_project_id`: priority order over the three sources.  Errors
(`.error`) model the exceptions the discovery step raises. -/
def get_user_project_id (credProjectId : Option String) (envProjectId : Option String)
    (token : Option String) (discovered : Option String) : Except String String :=
  if truthyStr credProjectId then .ok (credProjectId.getD "")
  else if truthyStr envProjectId then .ok (envProjectId.getD "")
  else if ¬ truthyStr token then
    .error "No valid access token available for project ID discovery"
  else if truthyStr discovered then .ok (discovered.getD "")
  else .error "Could not find cloudaicompanionProject in loadCodeAssist response."

/-! ## Onboarding tier handshake (`src/auth.py`, lines 280–358)

The decision logic of `onboard_user` after the load-assist call returned:
tier selection, the user-defined-project check, and whether an onboard call
is issued.  `load_data.get("currentTier")` and `allowed_tier.get("isDefault")`
are truthiness tests, modelled by `Option`/`Bool`. -/

/-- An upstream tier descriptor (the fields the code reads). -/
structure Tier where
  id : String
  isDefault : Bool
  userDefinedCloudaicompanionProject : Bool
deriving Repr, DecidableEq

/-- The fallback tier synthesized when no current or default tier exists. -/
def legacyTier : Tier :=
  { id := "legacy-tier", isDefault := false, userDefinedCloudaicompanionProject := true }

/-- Tier selection: `currentTier` if present, else the first allowed tier
flagged as default, else the synthesized legacy tier. -/
def selectTier (currentTier : Option Tier) (allowedTiers : List Tier) : Tier :=
  match currentTier with
  | some t => t
  | none => (allowedTiers.find? (fun t => t.isDefault)).getD legacyTier

/-- Outcome of the decision portion of `onboard_user`. -/
inductive OnboardOutcome where
  | configError
  | completeNoOnboard
  | needsOnboard (tierId : String)
deriving Repr, DecidableEq

/-- The decision logic of `onboard_user` (lines 310–339): select a tier,
raise `ValueError` when it requires a user-defined project and none was
given, return immediately (marking onboarding complete) when `currentTier`
was present, otherwise issue the onboard call with the chosen tier id. -/
def onboard_user_decision (currentTier : Option Tier) (allowedTiers : List Tier)
    (projectId : Option String) : OnboardOutcome :=
  let tier := selectTier currentTier allowedTiers
  if tier.userDefinedCloudaicompanionProject ∧ ¬ truthyStr projectId then
    .configError
  else
    match currentTier with
    | some _ => .completeNoOnboard
    | none => .needsOnboard tier.id

/-! ## OpenAI → Gemini request translation (`src/openai_transformers.py`, lines 19–90) -/

/-- One element of a structured OpenAI message content list (a JSON object
with a `type` tag; `text` and the nested `image_url.url` may be absent). -/
inductive OpenAIContentPart where
  | text (t : Option String)
  | imageUrl (url : Option String)
  | other (ty : String)
deriving Repr, DecidableEq

/-- OpenAI message content: a plain string or a structured part list. -/
inductive OpenAIContent where
  | str (s : String)
  | parts (ps : List OpenAIContentPart)
deriving Repr, DecidableEq

/-- An OpenAI chat message. -/
structure OpenAIMessage where
  role : String
  content : OpenAIContent
deriving Repr, DecidableEq

/-- A Gemini content part: text or inline binary data. -/
inductive GeminiPart where
  | text (t : String)
  | inlineData (mimeType : String) (data : String)
deriving Repr, DecidableEq

/-- One Gemini `contents` entry. -/
structure GeminiContent where
  role : String
  parts : List GeminiPart
deriving Repr, DecidableEq

/-- Role mapping: `assistant → model`, `system → user`, others unchanged. -/
def mapRequestRole (r : String) : String :=
  if r = "assistant" then "model" else if r = "system" then "user" else r

/-- The `data:` URI dissection of lines 39–41:
`mime_type, base64_data = image_url.split(";")` (both unpackings require
exactly two pieces), then `_, mime_type = mime_type.split(":")` and
`_, base64_data = base64_data.split(",")`; any other shape raises
`ValueError`, modelled by `none`. -/
def parseDataUri (url : String) : Option (String × String) :=
  match pySplit url ";" with
  | [mimePiece, dataPiece] =>
    (match pySplit mimePiece ":" with
      | [_, mimeType] =>
        (match pySplit dataPiece "," with
          | [_, base64Data] => some (mimeType, base64Data)
          | _ => none)
      | _ => none)
  | _ => none

/-- Translation of one structured content part; `none` means the part
contributes nothing (unknown type, missing/empty URL, or failed `data:`
parse — the `except ValueError: continue` branch). -/
def contentPartToGemini : OpenAIContentPart → Option GeminiPart
  | .text t => some (.text (t.getD ""))
  | .imageUrl url =>
      if truthyStr url then
        match parseDataUri (url.getD "") with
        | some (mimeType, base64Data) => some (.inlineData mimeType base64Data)
        | none => none
      else none
  | .other _ => none

/-- The parts list built for one structured-content message. -/
def contentPartsToGemini (ps : List OpenAIContentPart) : List GeminiPart :=
  ps.filterMap contentPartToGemini

/-- The `contents` entry built for one OpenAI message (lines 24–52). -/
def messageToGemini (m : OpenAIMessage) : GeminiContent :=
  match m.content with
  | .str s => ⟨mapRequestRole m.role, [.text s]⟩
  | .parts ps => ⟨mapRequestRole m.role, contentPartsToGemini ps⟩

/-- The `contents` field of the translated request. -/
def openaiMessagesToGemini (ms : List OpenAIMessage) : List GeminiContent :=
  ms.map messageToGemini

/-! ## Gemini → OpenAI response translation (`src/openai_transformers.py`, lines 93–179) -/

/-- A Gemini candidate content part: optional `text`, optional `thought`
flag (absent = false). -/
structure GeminiRespPart where
  text : Option String := none
  thought : Bool := false
deriving Repr, DecidableEq

/-- A Gemini response candidate (the fields the code reads). -/
structure GeminiCandidate where
  role : Option String := none
  parts : List GeminiRespPart := []
  finishReason : Option String := none
  index : ℕ := 0
deriving Repr, DecidableEq

/-- Function `_map_finish_reason` (lines 170–179). -/
def map_finish_reason (geminiReason : Option String) : Option String :=
  if geminiReason = some "STOP" then some "stop"
  else if geminiReason = some "MAX_TOKENS" then some "length"
  else if geminiReason = some "SAFETY" ∨ geminiReason = some "RECITATION" then
    some "content_filter"
  else none

/-- Response-side role mapping: `model → assistant`, else unchanged
(an absent role defaults to `assistant`). -/
def mapResponseRole (r : Option String) : String :=
  let role := r.getD "assistant"
  if role = "model" then "assistant" else role

/-- The content/reasoning accumulation loop shared by the streaming and
non-streaming translations (lines 103–111 and 142–150): parts with falsy
`text` are skipped; `thought` parts accumulate into the reasoning string,
the rest into the content string. -/
def accumParts (ps : List GeminiRespPart) : String × String :=
  ps.foldl
    (fun acc p =>
      if ¬ truthyStr p.text then acc
      else if p.thought then (acc.1, acc.2 ++ p.text.getD "")
      else (acc.1 ++ p.text.getD "", acc.2))
    ("", "")

/-- One choice of the non-streaming translation
(`gemini_response_to_openai`): the message always carries `content`, and
`reasoning_content` only when non-empty. -/
structure OpenAIChoice where
  index : ℕ
  role : String
  content : String
  reasoning_content : Option String
  finish_reason : Option String
deriving Repr, DecidableEq

/-- Function `gemini_response_to_openai` (lines 93–129), per candidate. -/
def gemini_response_choice (c : GeminiCandidate) : OpenAIChoice :=
  let acc := accumParts c.parts
  { index := c.index
    role := mapResponseRole c.role
    content := acc.1
    reasoning_content := if acc.2 ≠ "" then some acc.2 else none
    finish_reason := map_finish_reason c.finishReason }

/-- One choice of the streaming translation: the delta omits `content` and
`reasoning_content` entirely when they are empty. -/
structure OpenAIStreamChoice where
  index : ℕ
  deltaContent : Option String
  deltaReasoning : Option String
  finish_reason : Option String
deriving Repr, DecidableEq

/-- Function `gemini_stream_chunk_to_openai` (lines 132–167), per candidate. -/
def gemini_stream_choice (c : GeminiCandidate) : OpenAIStreamChoice :=
  let acc := accumParts c.parts
  { index := c.index
    deltaContent := if acc.1 ≠ "" then some acc.1 else none
    deltaReasoning := if acc.2 ≠ "" then some acc.2 else none
    finish_reason := map_finish_reason c.finishReason }

/-! ## Helper lemmas -/

/-- Lookup after insert of the same key. -/
theorem cdLookup_cdInsert_self (m : CDMap) (k : String) (v : ℚ × ℕ) :
    cdLookup (cdInsert m k v) k = some v := by
  simp [cdLookup, cdInsert, List.find?]

/-- Lookup after erase of the same key. -/
theorem cdLookup_cdErase_self (m : CDMap) (k : String) :
    cdLookup (cdErase m k) k = none := by
  simp only [cdLookup, cdErase]
  rw [Option.map_eq_none', List.find?_eq_none]
  intro e he
  have h2 := (List.mem_filter.mp he).2
  simp_all

/-- A sequence of cooldown calls splits at its last call. -/
theorem setCooldownSeq_append_single (m : CDMap) (path : String) (ts : List ℚ) (t : ℚ) :
    setCooldownSeq m path (ts ++ [t]) =
      set_credential_cooldown (setCooldownSeq m path ts) path t := by
  simp [setCooldownSeq, List.foldl_append]

/-- The entry `set_credential_cooldown` stores for its own key. -/
theorem set_credential_cooldown_lookup (m : CDMap) (p : String) (t : ℚ) :
    cdLookup (set_credential_cooldown m p t) p =
      some (t + (cooldownSeconds 60 1800 (nextBackoff m p) : ℚ), nextBackoff m p) := by
  simp only [set_credential_cooldown]
  exact cdLookup_cdInsert_self ..

/-- State of the cooldown entry after `n = ts.length + 1` consecutive
`set_credential_cooldown` calls starting from an empty map: the backoff level
is `min n 5`, and the expiry recorded by the last call is its wall-clock time
plus `cooldownSeconds 60 1800 (min n 5)`. -/
theorem setCooldownSeq_lookup (path : String) (ts : List ℚ) (t : ℚ) :
    cdLookup (setCooldownSeq [] path (ts ++ [t])) path =
      some (t + (cooldownSeconds 60 1800 (min (ts.length + 1) 5) : ℚ),
        min (ts.length + 1) 5) := by
  induction ts using List.reverseRecOn generalizing t with
  | nil =>
      have h1 : min (0 + 1) 5 = 1 := by omega
      have h2 : nextBackoff [] path = 1 := rfl
      have h3 : setCooldownSeq [] path ([] ++ [t]) = set_credential_cooldown [] path t := by
        simp [setCooldownSeq]
      rw [h3, set_credential_cooldown_lookup, h2]
      simp [h1]
  | append_singleton ts u ih =>
      rw [setCooldownSeq_append_single, set_credential_cooldown_lookup]
      have hnb : nextBackoff (setCooldownSeq [] path (ts ++ [u])) path =
          min (ts.length + 1 + 1) 5 := by
        simp only [nextBackoff, ih u]
        omega
      have hlen : (ts ++ [u]).length + 1 = ts.length + 1 + 1 := by simp
      rw [hnb, hlen]

/-- The accumulator loop of `accumParts`, with an arbitrary starting pair. -/
theorem accumParts_go (ps : List GeminiRespPart) (c r : String) :
    ps.foldl
      (fun acc p =>
        if ¬ truthyStr p.text then acc
        else if p.thought then (acc.1, acc.2 ++ p.text.getD "")
        else (acc.1 ++ p.text.getD "", acc.2))
      (c, r) = (c ++ (accumParts ps).1, r ++ (accumParts ps).2) := by
  induction ps generalizing c r with
  | nil => simp [accumParts]
  | cons p t ih =>
      simp only [accumParts, List.foldl_cons] at ih ⊢
      by_cases hp : truthyStr p.text
      · by_cases ht : p.thought
        · simp only [hp, ht, not_true, if_false, if_true, ite_true, ite_false,
            Bool.not_true, not_true_eq_false]
          rw [ih c (r ++ p.text.getD ""), ih ("" : String) ("" ++ p.text.getD "")]
          simp [String.append_assoc, String.empty_append]
        · simp only [hp, ht, not_true, if_false, if_true, ite_true, ite_false,
            Bool.not_true, not_true_eq_false, Bool.false_eq_true]
          rw [ih (c ++ p.text.getD "") r, ih ("" ++ p.text.getD "") ("" : String)]
          simp [String.append_assoc, String.empty_append]
      · simp only [hp, not_false_eq_true, if_true, ite_true, Bool.false_eq_true,
          not_false_iff]
        exact ih c r

/-- The function `accumParts` is a homomorphism for list concatenation, componentwise. -/
theorem accumParts_append (l1 l2 : List GeminiRespPart) :
    accumParts (l1 ++ l2) =
      ((accumParts l1).1 ++ (accumParts l2).1,
       (accumParts l1).2 ++ (accumParts l2).2) := by
  simp only [accumParts, List.foldl_append]
  have h := accumParts_go l2 (accumParts l1).1 (accumParts l1).2
  simpa [accumParts] using h

/-- Folding string concatenation from an arbitrary accumulator. -/
theorem foldl_string_append (L : List String) (s : String) :
    L.foldl (fun a b => a ++ b) s = s ++ L.foldl (fun a b => a ++ b) "" := by
  induction L generalizing s with
  | nil => simp
  | cons h t ih =>
      simp only [List.foldl_cons, String.empty_append]
      rw [ih (s ++ h), ih h]
      simp [String.append_assoc]

/-! ## Claim theorems: cooldown tracker (C1, C2, C10) -/

/-- C1 (amended): for every credential path and every sequence of `n ≥ 1`
consecutive `set_credential_cooldown` calls (`n = ts.length + 1`) with no
intervening reset or query, the n-th call records a cooldown duration of
`min(60 * 2^(min(n,5)-1), 1800)` seconds — the backoff level is capped at 5
before the duration is computed, so the duration itself tops out at 960 s —
and the stored backoff level equals `min(n,5)`, hence never exceeds 5 no
matter how many further calls arrive. -/
theorem C1_cooldown_duration_amended (path : String) (ts : List ℚ) (t : ℚ) :
    cdLookup (setCooldownSeq [] path (ts ++ [t])) path =
      some (t + ((min (60 * 2 ^ (min (ts.length + 1) 5 - 1)) 1800 : ℕ) : ℚ),
        min (ts.length + 1) 5) ∧
    min (ts.length + 1) 5 ≤ 5 := by
  refine ⟨?_, by omega⟩
  simpa [cooldownSeconds] using setCooldownSeq_lookup path ts t

/-- C1 counterexample: on the 6th consecutive call the code records
`min(60 * 2^(min(6,5)-1), 1800) = 960` seconds of cooldown, while the
claim's formula `min(60 * 2^(6-1), 1800)` demands `1800`. -/
theorem C1_cooldown_duration_counterexample :
    cdLookup (setCooldownSeq [] "c" [0, 0, 0, 0, 0, 0]) "c" = some ((960 : ℚ), 5) ∧
    (960 : ℕ) ≠ min (60 * 2 ^ (6 - 1)) 1800 := by
  constructor
  · norm_num [setCooldownSeq, set_credential_cooldown, cdInsert, cdLookup,
      nextBackoff, cooldownSeconds, List.find?, List.filter]
  · decide

/-- C2 (amended): the backoff state for a credential moves only as follows.
A rate-limit signal advances the stored level `b` to `min(b+1,5)` (never
below the current level while it is within the cap);
`reset_credential_cooldown` — called on successful use — removes the entry,
so the next signal starts again at level 1; and a cooldown query made at or
after the stored expiry lazily evicts the entry, after which the next signal
likewise starts at level 1.  The reset on natural expiry happens only through
such a query: a bare `set_credential_cooldown` after expiry continues from
the previous level (see the counterexample). -/
theorem C2_backoff_reset_amended (m : CDMap) (p : String) (e : ℚ) (b : ℕ)
    (now t u : ℚ) (hl : cdLookup m p = some (e, b)) (hb : b ≤ 5) :
    (cdLookup (set_credential_cooldown m p t) p =
        some (t + ((cooldownSeconds 60 1800 (min (b + 1) 5) : ℕ) : ℚ), min (b + 1) 5) ∧
      b ≤ min (b + 1) 5) ∧
    cdLookup (reset_credential_cooldown m p) p = none ∧
    cdLookup (set_credential_cooldown (reset_credential_cooldown m p) p t) p =
      some (t + ((60 : ℕ) : ℚ), 1) ∧
    (now ≥ e →
      is_credential_in_cooldown m p now = (false, cdErase m p) ∧
      cdLookup (set_credential_cooldown (cdErase m p) p u) p =
        some (u + ((60 : ℕ) : ℚ), 1)) ∧
    (pyInt (e - now) ≤ 0 →
      get_credential_cooldown_remaining m p now = (0, cdErase m p)) := by
  have hreset : cdLookup (reset_credential_cooldown m p) p = none := by
    simp only [reset_credential_cooldown]
    exact cdLookup_cdErase_self m p
  have hfresh : ∀ (m' : CDMap), cdLookup m' p = none → ∀ v : ℚ,
      cdLookup (set_credential_cooldown m' p v) p = some (v + ((60 : ℕ) : ℚ), 1) := by
    intro m' hm' v
    rw [set_credential_cooldown_lookup]
    simp [nextBackoff, hm', cooldownSeconds]
  refine ⟨⟨?_, by omega⟩, hreset, ?_, ?_, ?_⟩
  · rw [set_credential_cooldown_lookup]
    simp [nextBackoff, hl]
  · exact hfresh _ hreset t
  · intro hge
    have hq : is_credential_in_cooldown m p now = (false, cdErase m p) := by
      simp [is_credential_in_cooldown, hl, hge]
    exact ⟨hq, hfresh _ (cdLookup_cdErase_self m p) u⟩
  · intro hle
    simp [get_credential_cooldown_remaining, hl, hle]

/-- C2 witness: concrete instantiation — entry `("c", (60, 1))`; reset
clears it; a query at time 100 (after expiry 60) evicts it; and a signal at
time 200 on the evicted map starts again at level 1. -/
theorem C2_backoff_reset_witness :
    cdLookup (reset_credential_cooldown (set_credential_cooldown [] "c" 0) "c") "c" =
      none ∧
    is_credential_in_cooldown (set_credential_cooldown [] "c" 0) "c" 100 =
      (false, cdErase (set_credential_cooldown [] "c" 0) "c") ∧
    cdLookup
        (set_credential_cooldown (cdErase (set_credential_cooldown [] "c" 0) "c") "c" 200)
        "c" =
      some (200 + ((60 : ℕ) : ℚ), 1) := by
  have hl : cdLookup (set_credential_cooldown [] "c" 0) "c" = some (60, 1) := by
    norm_num [set_credential_cooldown, cdInsert, cdLookup, nextBackoff,
      cooldownSeconds, List.find?]
  have h := C2_backoff_reset_amended (set_credential_cooldown [] "c" 0) "c" 60 1
    100 200 200 hl (by omega)
  exact ⟨h.2.1, (h.2.2.2.1 (by norm_num)).1, (h.2.2.2.1 (by norm_num)).2⟩

/-- C2 counterexample: with the reachable entry `(expiry 60, level 1)` and
no intervening query, a `set_credential_cooldown` call at time 100 — after
the cooldown already expired at 60 — stores level `2` (expiry `220`), not
level `1` as the claim demands. -/
theorem C2_backoff_reset_counterexample :
    (100 : ℚ) ≥ 60 ∧
    cdLookup (set_credential_cooldown (set_credential_cooldown [] "c" 0) "c" 100) "c" =
      some ((220 : ℚ), 2) ∧
    (2 : ℕ) ≠ 1 := by
  refine ⟨by norm_num, ?_, by decide⟩
  norm_num [set_credential_cooldown, cdInsert, cdLookup, nextBackoff,
    cooldownSeconds, List.find?, List.filter]

/-- C10: the two cooldown queries disagree at sub-second granularity.  For
any map entry `(e, b)` for credential `p`: whenever the expiry lies strictly
less than one second in the future (`now < e < now + 1`),
`is_credential_in_cooldown` reports `true` while
`get_credential_cooldown_remaining` reports `0` (the remainder is truncated
to an integer); for every other in-cooldown instant (`now + 1 ≤ e`) both
agree the credential is cooling down with a strictly positive remainder. -/
theorem C10_query_granularity (m : CDMap) (p : String) (e : ℚ) (b : ℕ) (now : ℚ)
    (hl : cdLookup m p = some (e, b)) :
    (now < e → e < now + 1 →
      (is_credential_in_cooldown m p now).1 = true ∧
      (get_credential_cooldown_remaining m p now).1 = 0) ∧
    (now + 1 ≤ e →
      (is_credential_in_cooldown m p now).1 = true ∧
      0 < (get_credential_cooldown_remaining m p now).1) := by
  constructor
  · intro h1 h2
    have hnge : ¬ now ≥ e := not_le.mpr h1
    have hfloor : pyInt (e - now) = 0 := by
      have hpos : (0 : ℚ) ≤ e - now := by linarith
      rw [pyInt, if_neg (by linarith)]
      rw [Int.floor_eq_zero_iff]
      constructor
      · exact hpos
      · simpa using by linarith [h2]
    constructor
    · simp [is_credential_in_cooldown, hl, hnge]
    · simp [get_credential_cooldown_remaining, hl, hfloor]
  · intro h1
    have hnge : ¬ now ≥ e := by
      intro hge
      linarith
    have hfloor : 1 ≤ pyInt (e - now) := by
      rw [pyInt, if_neg (by linarith)]
      exact Int.le_floor.mpr (by push_cast; linarith)
    constructor
    · simp [is_credential_in_cooldown, hl, hnge]
    · simp only [get_credential_cooldown_remaining, hl]
      rw [if_neg (by omega)]
      omega

/-- C10 witness: after a signal at time 0 the entry is `(60, 1)`; at
`now = 59.5` the boolean query still reports in-cooldown while the remaining
query reports 0; at `now = 30` both report in-cooldown with remainder
positive. -/
theorem C10_query_granularity_witness :
    (is_credential_in_cooldown (set_credential_cooldown [] "c" 0) "c" (119 / 2)).1 = true ∧
    (get_credential_cooldown_remaining (set_credential_cooldown [] "c" 0) "c" (119 / 2)).1 = 0 ∧
    (is_credential_in_cooldown (set_credential_cooldown [] "c" 0) "c" 30).1 = true ∧
    0 < (get_credential_cooldown_remaining (set_credential_cooldown [] "c" 0) "c" 30).1 := by
  have hl : cdLookup (set_credential_cooldown [] "c" 0) "c" = some (60, 1) := by
    norm_num [set_credential_cooldown, cdInsert, cdLookup, nextBackoff,
      cooldownSeconds, List.find?]
  have h1 := (C10_query_granularity (set_credential_cooldown [] "c" 0) "c" 60 1
    (119 / 2) hl).1 (by norm_num) (by norm_num)
  have h2 := (C10_query_granularity (set_credential_cooldown [] "c" 0) "c" 60 1
    30 hl).2 (by norm_num)
  exact ⟨h1.1, h1.2, h2.1, h2.2⟩

/-- The function `List.find?` returns the first element satisfying the predicate. -/
theorem find?_eq_of_first {α : Type} (p : α → Bool) (l : List α) (i : ℕ)
    (hi : i < l.length) (hp : p (l.get ⟨i, hi⟩) = true)
    (hmin : ∀ j, j < i → ∀ (hjl : j < l.length), p (l.get ⟨j, hjl⟩) = false) :
    l.find? p = some (l.get ⟨i, hi⟩) := by
  induction l generalizing i with
  | nil => simp at hi
  | cons a t ih =>
      cases i with
      | zero =>
          simp only [List.get] at hp
          simp [List.find?, hp]
      | succ k =>
          have h0 : p a = false :=
            hmin 0 (Nat.succ_pos k) (Nat.succ_pos t.length)
          simp only [List.find?, h0]
          exact ih k (Nat.lt_of_succ_lt_succ hi) hp
            (fun j hj hjl =>
              hmin (j + 1) (Nat.succ_lt_succ hj) (Nat.succ_lt_succ hjl))

/-! ## Claim theorems: protocol translator (C5, C6, C7) -/

/-- C5: translating a message whose structured content is a text part
followed by an `image_url` part with URL exactly `data:image/png;base64,AAAA`
yields one text part followed by one inline-binary part with MIME type
`image/png` and data `AAAA`, in that order; and an image part whose URL fails
the `data:` dissection is silently dropped — no error — while the remaining
parts of the message still translate. -/
theorem C5_image_translation (t tail : Option String) (url : String)
    (hbad : parseDataUri url = none) :
    contentPartsToGemini
        [.text t, .imageUrl (some "data:image/png;base64,AAAA")] =
      [.text (t.getD ""), .inlineData "image/png" "AAAA"] ∧
    contentPartsToGemini [.text t, .imageUrl (some url), .text tail] =
      [.text (t.getD ""), .text (tail.getD "")] := by
  have hgood : parseDataUri "data:image/png;base64,AAAA" =
      some ("image/png", "AAAA") := by decide
  constructor
  · simp [contentPartsToGemini, contentPartToGemini, hgood, truthyStr]
  · by_cases hu : url = ""
    · simp [contentPartsToGemini, contentPartToGemini, hu, truthyStr]
    · simp [contentPartsToGemini, contentPartToGemini, hbad, truthyStr, hu]

/-- C5 witness: concrete texts and the malformed URL `data:image/png`
(no comma-delimited payload), which fails the dissection and is dropped. -/
theorem C5_image_translation_witness :
    parseDataUri "data:image/png" = none ∧
    contentPartsToGemini
        [.text (some "hello"), .imageUrl (some "data:image/png;base64,AAAA")] =
      [.text "hello", .inlineData "image/png" "AAAA"] ∧
    contentPartsToGemini
        [.text (some "hello"), .imageUrl (some "data:image/png"), .text (some "world")] =
      [.text "hello", .text "world"] := by
  have h := C5_image_translation (some "hello") (some "world") "data:image/png"
    (by decide)
  exact ⟨by decide, h.1, h.2⟩

/-- Concatenating per-chunk content accumulations equals accumulating the
concatenated parts. -/
theorem foldl_accumParts_fst (L : List (List GeminiRespPart)) :
    (L.map (fun ps => (accumParts ps).1)).foldl (fun a b => a ++ b) "" =
      (accumParts L.flatten).1 := by
  induction L with
  | nil => rfl
  | cons h t ih =>
      simp only [List.map_cons, List.foldl_cons, List.flatten_cons,
        String.empty_append]
      rw [foldl_string_append, ih, accumParts_append]

/-- Concatenating per-chunk reasoning accumulations equals accumulating the
concatenated parts. -/
theorem foldl_accumParts_snd (L : List (List GeminiRespPart)) :
    (L.map (fun ps => (accumParts ps).2)).foldl (fun a b => a ++ b) "" =
      (accumParts L.flatten).2 := by
  induction L with
  | nil => rfl
  | cons h t ih =>
      simp only [List.map_cons, List.foldl_cons, List.flatten_cons,
        String.empty_append]
      rw [foldl_string_append, ih, accumParts_append]

/-- C6: for one candidate, concatenating the `content` deltas (an omitted
delta field counting as empty) across an ordered sequence of streaming chunk
translations whose parts concatenate to `chunks.join` equals the `content`
field of the non-streaming translation of an upstream reply carrying those
same parts in the same order; the same holds for the accumulated
`reasoning_content` fields. -/
theorem C6_stream_equals_full (chunks : List (List GeminiRespPart))
    (role fr : Option String) (idx : ℕ) :
    ((chunks.map (fun ps =>
        ((gemini_stream_choice ⟨role, ps, fr, idx⟩).deltaContent).getD "")).foldl
        (fun a b => a ++ b) "") =
      (gemini_response_choice ⟨role, chunks.flatten, fr, idx⟩).content ∧
    ((chunks.map (fun ps =>
        ((gemini_stream_choice ⟨role, ps, fr, idx⟩).deltaReasoning).getD "")).foldl
        (fun a b => a ++ b) "") =
      ((gemini_response_choice ⟨role, chunks.flatten, fr, idx⟩).reasoning_content).getD "" := by
  have hc : ∀ ps : List GeminiRespPart,
      ((gemini_stream_choice ⟨role, ps, fr, idx⟩).deltaContent).getD "" =
        (accumParts ps).1 := by
    intro ps
    simp only [gemini_stream_choice]
    by_cases h : (accumParts ps).1 = "" <;> simp [h]
  have hr : ∀ ps : List GeminiRespPart,
      ((gemini_stream_choice ⟨role, ps, fr, idx⟩).deltaReasoning).getD "" =
        (accumParts ps).2 := by
    intro ps
    simp only [gemini_stream_choice]
    by_cases h : (accumParts ps).2 = "" <;> simp [h]
  have hrc : ((gemini_response_choice ⟨role, chunks.flatten, fr, idx⟩).reasoning_content).getD ""
      = (accumParts chunks.flatten).2 := by
    simp only [gemini_response_choice]
    by_cases h : (accumParts chunks.flatten).2 = "" <;> simp [h]
  constructor
  · simp only [hc, gemini_response_choice]
    exact foldl_accumParts_fst chunks
  · simp only [hr, hrc]
    exact foldl_accumParts_snd chunks

/-- C7: the finish-reason mapping sends `STOP` to `stop`, `MAX_TOKENS` to
`length`, `SAFETY` and `RECITATION` both to `content_filter`, and any other
value — including a missing finish reason — to `null`; no other output is
possible. -/
theorem C7_finish_reason_exhaustive (r : Option String)
    (h : r ∉ ([some "STOP", some "MAX_TOKENS", some "SAFETY", some "RECITATION"] :
      List (Option String))) :
    map_finish_reason (some "STOP") = some "stop" ∧
    map_finish_reason (some "MAX_TOKENS") = some "length" ∧
    map_finish_reason (some "SAFETY") = some "content_filter" ∧
    map_finish_reason (some "RECITATION") = some "content_filter" ∧
    map_finish_reason r = none ∧
    (∀ r' : Option String,
      map_finish_reason r' = some "stop" ∨ map_finish_reason r' = some "length" ∨
      map_finish_reason r' = some "content_filter" ∨ map_finish_reason r' = none) := by
  simp only [List.mem_cons, List.not_mem_nil, or_false, not_or] at h
  refine ⟨by decide, by decide, by decide, by decide, ?_, ?_⟩
  · simp [map_finish_reason, h.1, h.2.1, h.2.2.1, h.2.2.2]
  · intro r'
    unfold map_finish_reason
    split_ifs <;> tauto

/-- C7 witness: a missing finish reason maps to `null`. -/
theorem C7_finish_reason_witness :
    map_finish_reason (some "STOP") = some "stop" ∧
    map_finish_reason (some "MAX_TOKENS") = some "length" ∧
    map_finish_reason (some "SAFETY") = some "content_filter" ∧
    map_finish_reason (some "RECITATION") = some "content_filter" ∧
    map_finish_reason none = none := by
  have h := C7_finish_reason_exhaustive none (by decide)
  exact ⟨h.1, h.2.1, h.2.2.1, h.2.2.2.1, h.2.2.2.2.1⟩

/-! ## Claim theorems: project-id resolution and onboarding (C8, C9) -/

/-- C8: a credential that exposes a non-empty `project_id` always resolves
to that value regardless of the `GOOGLE_CLOUD_PROJECT` override or the
discoverable value; the override is consulted only when the credential
exposes no project id, and API discovery only when neither is available. -/
theorem C8_project_id_priority (p : String) (hp : p ≠ "")
    (env token disc : Option String) :
    get_user_project_id (some p) env token disc = .ok p ∧
    (∀ cred : Option String, truthyStr cred = false → truthyStr env = true →
      get_user_project_id cred env token disc = .ok (env.getD "")) ∧
    (∀ cred : Option String, truthyStr cred = false → truthyStr env = false →
      truthyStr token = true →
      get_user_project_id cred env token disc =
        (if truthyStr disc then .ok (disc.getD "")
         else .error
           "Could not find cloudaicompanionProject in loadCodeAssist response.")) := by
  refine ⟨?_, ?_, ?_⟩
  · simp [get_user_project_id, truthyStr, hp]
  · intro cred hc he
    simp [get_user_project_id, hc, he]
  · intro cred hc he ht
    simp [get_user_project_id, hc, he, ht]

/-- C8 witness: credential project `proj-a`, override `proj-b`, discovered
`proj-c`: the embedded id wins; without an embedded id the override wins;
with neither, discovery supplies the value. -/
theorem C8_project_id_priority_witness :
    get_user_project_id (some "proj-a") (some "proj-b") (some "tok") (some "proj-c") =
      .ok "proj-a" ∧
    get_user_project_id none (some "proj-b") (some "tok") (some "proj-c") =
      .ok "proj-b" ∧
    get_user_project_id none none (some "tok") (some "proj-c") = .ok "proj-c" := by
  have h1 := C8_project_id_priority "proj-a" (by decide) (some "proj-b")
    (some "tok") (some "proj-c")
  have h2 := C8_project_id_priority "proj-a" (by decide) none
    (some "tok") (some "proj-c")
  refine ⟨h1.1, ?_, ?_⟩
  · simpa using h1.2.1 none (by decide) (by decide)
  · simpa using h2.2.2 none (by decide) (by decide) (by decide)

/-- C9: the onboarding handshake selects `currentTier` when present, else
the first allowed tier flagged as default, else the synthesized legacy tier
(which requires a user-defined project); it fails with the configuration
error exactly when the selected tier requires a user-defined project and no
project id was supplied; and when `currentTier` is present and no such
failure occurs, it marks onboarding complete and returns without issuing an
onboard call. -/
theorem C9_onboarding_decision (currentTier : Option Tier) (allowed : List Tier)
    (pid : Option String) :
    (onboard_user_decision currentTier allowed pid = .configError ↔
      ((selectTier currentTier allowed).userDefinedCloudaicompanionProject = true ∧
        truthyStr pid = false)) ∧
    (∀ t, currentTier = some t → selectTier currentTier allowed = t) ∧
    (currentTier = none → ∀ i, ∀ (hi : i < allowed.length),
      (allowed.get ⟨i, hi⟩).isDefault = true →
      (∀ j, j < i → ∀ (hjl : j < allowed.length),
        (allowed.get ⟨j, hjl⟩).isDefault = false) →
      selectTier currentTier allowed = allowed.get ⟨i, hi⟩) ∧
    (currentTier = none → (∀ t ∈ allowed, t.isDefault = false) →
      selectTier currentTier allowed = legacyTier ∧
      legacyTier.userDefinedCloudaicompanionProject = true) ∧
    (∀ t, currentTier = some t →
      ¬(t.userDefinedCloudaicompanionProject = true ∧ truthyStr pid = false) →
      onboard_user_decision currentTier allowed pid = .completeNoOnboard) := by
  refine ⟨?_, ?_, ?_, ?_, ?_⟩
  · unfold onboard_user_decision
    by_cases hc : (selectTier currentTier allowed).userDefinedCloudaicompanionProject = true
        ∧ truthyStr pid = false
    · rw [if_pos ?side]
      · simp [hc]
      case side =>
        exact ⟨hc.1, by simp [hc.2]⟩
    · rw [if_neg ?side]
      · constructor
        · intro hh
          exfalso
          cases currentTier <;> simp_all
        · intro hh
          exact absurd hh hc
      case side =>
        intro hh
        exact hc ⟨hh.1, by simpa using hh.2⟩
  · intro t ht
    simp [selectTier, ht]
  · intro hn i hi hdef hfirst
    simp only [selectTier, hn]
    rw [find?_eq_of_first (fun t => t.isDefault) allowed i hi hdef hfirst]
    rfl
  · intro hn hall
    constructor
    · simp only [selectTier, hn]
      rw [List.find?_eq_none.mpr (fun t ht => by simp [hall t ht])]
      rfl
    · rfl
  · intro t ht hno
    unfold onboard_user_decision
    rw [if_neg ?side, ht]
    case side =>
      intro hh
      have hsel : selectTier currentTier allowed = t := by simp [selectTier, ht]
      rw [hsel] at hh
      exact hno ⟨hh.1, by simpa using hh.2⟩

/-- C9 witness: with no current tier, allowed tiers `[a (not default),
b (default, requires user project)]` and no project id, tier `b` is selected
and the decision is the configuration error; with no current tier and an
empty allowed-tiers list the synthesized legacy tier is selected and the
decision is likewise the configuration error; with a current tier not
requiring a user project, the decision is complete-without-onboarding. -/
theorem C9_onboarding_decision_witness :
    selectTier none [⟨"a", false, false⟩, ⟨"b", true, true⟩] = ⟨"b", true, true⟩ ∧
    onboard_user_decision none [⟨"a", false, false⟩, ⟨"b", true, true⟩] none =
      .configError ∧
    selectTier none [] = legacyTier ∧
    onboard_user_decision none [] none = .configError ∧
    onboard_user_decision (some ⟨"cur", false, false⟩) [⟨"a", false, false⟩] none =
      .completeNoOnboard := by
  have h := C9_onboarding_decision none [⟨"a", false, false⟩, ⟨"b", true, true⟩]
    none
  have hsel := h.2.2.1 rfl 1 (by norm_num) rfl
    (fun j hj hjl => by
      have hj0 : j = 0 := by omega
      subst hj0
      rfl)
  have hsel' : selectTier none [⟨"a", false, false⟩, ⟨"b", true, true⟩] =
      ⟨"b", true, true⟩ := by
    rw [hsel]
    rfl
  have hempty := C9_onboarding_decision none [] none
  have hleg : selectTier none [] = legacyTier :=
    (hempty.2.2.2.1 rfl (fun t ht => absurd ht (List.not_mem_nil t))).1
  have h2 := C9_onboarding_decision (some ⟨"cur", false, false⟩)
    [⟨"a", false, false⟩] none
  refine ⟨hsel', ?_, hleg, ?_, ?_⟩
  · exact h.1.mpr ⟨by rw [hsel'], rfl⟩
  · exact hempty.1.mpr ⟨by rw [hleg]; rfl, rfl⟩
  · exact h2.2.2.2.2 ⟨"cur", false, false⟩ rfl (by decide)

/-! ## Claim theorems: credential resolution and loading (C3, C4) -/

/-- Aliasing does not touch the `expiry` field. -/
theorem aliasCreds_expiry (cd : RawCreds) : (aliasCreds cd).expiry = cd.expiry := by
  unfold aliasCreds
  dsimp only
  split_ifs <;> rfl

/-- Characterization of an unusable store: `load_any_valid_credentials`
returns `none` exactly when no file loads with a truthy token. -/
theorem load_any_none_iff (files : CredStore) (scopes : List String) :
    load_any_valid_credentials files scopes = none ↔
      ∀ g ∈ files, ∀ c', load_credentials_from_file g.2 scopes = some c' →
        truthyStr c'.token = false := by
  rw [load_any_valid_credentials, List.findSome?_eq_none_iff]
  constructor
  · intro hall g hg c' hl
    have h := hall g hg
    rw [hl] at h
    by_contra htr
    rw [Bool.not_eq_false] at htr
    simp [htr] at h
  · intro hall g hg
    cases hl : load_credentials_from_file g.2 scopes with
    | none => simp
    | some c' => simp [hall g hg c' hl]

/-- C3 (amended): `get_credentials` with a project id first looks for the
stored record whose embedded `project_id` matches and returns its loaded
credentials when they carry a non-empty token; with no project id it
returns `load_any_valid_credentials` — the first record that loads with a
non-empty token; and it returns `None` exactly when no stored record loads
successfully with a non-empty token — in particular when the store is empty
or all records fail to parse, but also when records parse yet carry no
token. -/
theorem C3_resolve_amended (files : CredStore) (scopes : List String)
    (pid : String) (hpid : pid ≠ "") (f : String × Option RawCreds)
    (c : Credentials) :
    (find_credential_file_for_project files pid = some f →
      load_credentials_from_file f.2 scopes = some c → truthyStr c.token = true →
      get_credentials files scopes (some pid) = some c) ∧
    (get_credentials files scopes none = load_any_valid_credentials files scopes) ∧
    (∀ pid' : Option String,
      (get_credentials files scopes pid' = none ↔
        load_any_valid_credentials files scopes = none)) ∧
    (load_any_valid_credentials files scopes = none ↔
      ∀ g ∈ files, ∀ c', load_credentials_from_file g.2 scopes = some c' →
        truthyStr c'.token = false) := by
  refine ⟨?_, rfl, ?_, load_any_none_iff files scopes⟩
  · intro hfind hload htok
    simp [get_credentials, hpid, hfind, hload, htok]
  · intro pid'
    cases pid' with
    | none => exact Iff.rfl
    | some p =>
      by_cases hp : p = ""
      · simp [get_credentials, hp]
      · simp only [get_credentials, hp, if_neg, if_false]
        cases hfind : find_credential_file_for_project files p with
        | none => simp
        | some g =>
          simp only []
          cases hload : load_credentials_from_file g.2 scopes with
          | none => simp
          | some c' =>
            by_cases htok : truthyStr c'.token = true
            · simp only [htok, if_true, if_pos]
              constructor
              · intro hh
                exact absurd hh (by simp)
              · intro hnone
                exfalso
                have hg : g ∈ files :=
                  List.mem_of_find?_eq_some hfind
                have := (load_any_none_iff files scopes).mp hnone g hg c' hload
                rw [htok] at this
                simp at this
            · simp only [Bool.not_eq_true] at htok
              simp [htok]

/-- C3 witness: a one-file store bound to project `p1` with token `tok1`
resolves by project id to that record's loaded credentials, and `resolve`
with no project id equals `loadAny`. -/
theorem C3_resolve_witness :
    get_credentials [("p1.json", some projRaw)] [] (some "p1") =
      some ⟨some "tok1", some "r", [], none⟩ ∧
    get_credentials [("p1.json", some projRaw)] [] none =
      load_any_valid_credentials [("p1.json", some projRaw)] [] := by
  have h := C3_resolve_amended [("p1.json", some projRaw)] [] "p1" (by decide)
    ("p1.json", some projRaw) ⟨some "tok1", some "r", [], none⟩
  exact ⟨h.1 (by decide) (by decide) (by decide), h.2.1⟩

/-- C3 counterexample: a non-empty store whose single record parses
successfully (it is even refreshable) but carries no access token makes
`get_credentials` return `None`, contradicting "returns `None` exactly when
the store is empty or all records fail to parse". -/
theorem C3_resolve_counterexample :
    get_credentials [("a.json", some tokenlessRaw)] [] none = none ∧
    ([("a.json", some tokenlessRaw)] : CredStore) ≠ [] ∧
    load_credentials_from_file (some tokenlessRaw) [] ≠ none := by
  refine ⟨by decide, by decide, by decide⟩

/-- C4 (amended): the loader funnels every recognized expiry form through
the one canonical UTC formatter (`strftime('%Y-%m-%dT%H:%M:%SZ')` of
`utcfromtimestamp(timestamp(·))`), but a malformed expiry value makes
`load_credentials_from_file` fail and return `None` — the credential is
skipped — rather than loading as an already-expired credential: a marked
string (containing `+00:00` or `Z`) that fails the ISO parse aborts the
load, and an unmarked non-empty string that fails the canonical `strptime`
aborts it inside credential construction. -/
theorem C4_expiry_normalization_amended (cd : RawCreds) (scopes : List String)
    (s : String) (he : cd.expiry = some (.str s)) :
    (expiryAfterNormalization (.str s) = none →
      load_credentials_from_file (some cd) scopes = none) ∧
    ((pyContains s "+00:00" || pyContains s "Z") = true →
      expiryAfterNormalization (.str s) = none ∨
      ∃ dt, expiryAfterNormalization (.str s) =
        some (.str (strftimeZ (utcFromTimestamp (pyTimestamp dt))))) ∧
    ((pyContains s "+00:00" || pyContains s "Z") = false → s ≠ "" →
      strptimeCanonical (beforeDot (rstripZ s)) = none →
      load_credentials_from_file (some cd) scopes = none) := by
  have hexp : (aliasCreds cd).expiry = some (.str s) := by
    rw [aliasCreds_expiry, he]
  refine ⟨?_, ?_, ?_⟩
  · intro hnorm
    simp only [load_credentials_from_file, hexp, hnorm]
  · intro hmark
    simp only [expiryAfterNormalization, hmark, if_true]
    cases hp : (if pyContains s "+00:00" then fromisoformat s
        else if pyEndsWith s "Z" then fromisoformat (pyReplace s "Z" "+00:00")
        else fromisoformat s) with
    | none => left; simp [hp]
    | some dt => right; exact ⟨dt, by simp [hp]⟩
  · intro hmark hne hstrp
    have hnorm : expiryAfterNormalization (.str s) = some (.str s) := by
      simp [expiryAfterNormalization, hmark]
    simp only [load_credentials_from_file, hexp, hnorm]
    unfold from_authorized_user_info
    by_cases hkeys : ((aliasCreds cd).refresh_token.isNone ||
        (aliasCreds cd).client_id.isNone || (aliasCreds cd).client_secret.isNone) = true
    · simp [hkeys]
    · simp only [Bool.not_eq_true] at hkeys
      simp [hkeys, hne, hstrp]

/-- C4 witness: the malformed expiry `not-a-dateZ` fails normalization and
the whole load returns `None`; the recognized form `2024-02-29T12:30:05Z`
is rewritten through the canonical UTC formatter. -/
theorem C4_expiry_normalization_witness :
    load_credentials_from_file (some malformedExpiryRaw) [] = none ∧
    (expiryAfterNormalization (.str "2024-02-29T12:30:05Z") = none ∨
      ∃ dt, expiryAfterNormalization (.str "2024-02-29T12:30:05Z") =
        some (.str (strftimeZ (utcFromTimestamp (pyTimestamp dt))))) := by
  have h1 := C4_expiry_normalization_amended malformedExpiryRaw [] "not-a-dateZ" rfl
  have h2 := C4_expiry_normalization_amended wellFormedExpiryRaw []
    "2024-02-29T12:30:05Z" rfl
  exact ⟨h1.1 (by decide), h2.2.1 (by decide)⟩

/-- C4 counterexample: the credential with expiry `not-a-dateZ` — although
refreshable — does not load at all (`None`), while the same record with a
well-formed expiry loads; the claim's "still loads as an
expired-but-refreshable credential" is false. -/
theorem C4_expiry_counterexample :
    load_credentials_from_file (some malformedExpiryRaw) [] = none ∧
    malformedExpiryRaw.refresh_token.isSome = true ∧
    load_credentials_from_file (some wellFormedExpiryRaw) [] =
      some ⟨some "t", some "r", [], some ⟨2024, 2, 29, 12, 30, 5, 0, none⟩⟩ := by
  refine ⟨by decide, by decide, by decide⟩

end GeminiCli2Api
